import Mathlib

/-!
# Verification of `generate_rxn_image.py`

A shallow embedding of the 22-line script `src/generate_rxn_image.py`.
The script builds a reaction-SMARTS string from two constant lists of
fragment patterns, parses it with `ReactionFromSmarts`, renders the
reaction with a Cairo drawer configured by two draw options, and writes
the resulting bytes to the relative path `"reaction.png"`.

The external RDKit library (parser, drawer, filesystem write outcome) is
modelled as an abstract `Library` record of possibly-failing functions;
the script itself is embedded as `runScriptWith`, which records the
sequence of external calls it performs (a `List Step`) together with the
final outcome (the rendered bytes, or the first propagated error).
-/

namespace GenerateRxnImage

/-- The constant `reactants_smarts` from the script: the two reactant
fragment patterns. -/
def reactants_smarts : List String :=
  ["[*]-[S]-[H]",
   "[*]-[N]1-[C](=[O])-[CH]=[CH]-[C](=[O])-1"]

/-- The constant `products_smarts` from the script: the single product
fragment pattern. -/
def products_smarts : List String :=
  ["[*]-[N]1-[C](=[O])-[CH2]-[CH](-[S]-[*])-[C](=[O])-1"]

/-- The constant `thiol_maleimide_click_smarts`: reactants joined by `"."`,
then `">>"`, then products joined by `"."`, exactly as in the script. -/
def thiol_maleimide_click_smarts : String :=
  String.intercalate "." reactants_smarts ++ ">>" ++
    String.intercalate "." products_smarts

/-- The draw options object of the Cairo drawer.  The script touches two
named fields (`dummiesAreAttachments`, `padding`); every other option of
the RDKit `MolDrawOptions` record is abstracted into the opaque `otherOptions`
blob, which the script never writes. -/
structure DrawOptions where
  dummiesAreAttachments : Bool
  padding : Rat
  otherOptions : List (String × String)
deriving DecidableEq, Repr

/-- The mutation of the drawer options performed by lines 18–20 of the
script: `dopts.dummiesAreAttachments = True` and `dopts.padding = 0.0`. -/
def setScriptOptions (o : DrawOptions) : DrawOptions :=
  { o with dummiesAreAttachments := true, padding := 0 }

/-- One external call performed by the script, in program order. -/
inductive Step where
  /-- the call `ReactionFromSmarts(s)` -/
  | parse (smarts : String)
  /-- the call `Draw.MolDraw2DCairo(w, h)` -/
  | newDrawer (width height : Int)
  /-- the mutation of `d2d.drawOptions()` (lines 18–20) -/
  | setOptions (opts : DrawOptions)
  /-- the call `d2d.DrawReaction(rxn)` followed by `d2d.GetDrawingText()` -/
  | draw
  /-- the call `Path(path).write_bytes(bytes)` -/
  | write (path : String) (bytes : List Nat)
deriving DecidableEq, Repr

/-- The external RDKit library and filesystem, as a black box: a SMARTS
parser, a Cairo drawer constructor with its default draw options, a
renderer producing raw bytes, and a possibly-failing file write
(`writeOutcome p b = some e` means writing bytes `b` to `p` raises `e`;
`none` means the write succeeds). -/
structure Library where
  Reaction : Type
  Drawer : Type
  parseReaction : String → Except String Reaction
  newCairoDrawer : Int → Int → Except String Drawer
  defaultDrawOptions : Drawer → DrawOptions
  drawReaction : Drawer → DrawOptions → Reaction → Except String (List Nat)
  writeOutcome : String → List Nat → Option String

/-- The script body, generalised over the descriptor string it hands to
the parser (the script itself always passes `thiol_maleimide_click_smarts`).
Returns the external calls performed, in order, and the outcome: the bytes
written on success, or the first error, propagated unchanged.  Each line
of the straight-line Python maps to one match/let here. -/
def runScriptWith (lib : Library) (smarts : String) :
    List Step × Except String (List Nat) :=
  match lib.parseReaction smarts with
  | .error e => ([.parse smarts], .error e)
  | .ok rxn =>
    match lib.newCairoDrawer (-1) 150 with
    | .error e => ([.parse smarts, .newDrawer (-1) 150], .error e)
    | .ok d =>
      match lib.drawReaction d (setScriptOptions (lib.defaultDrawOptions d)) rxn with
      | .error e =>
          ([.parse smarts, .newDrawer (-1) 150,
            .setOptions (setScriptOptions (lib.defaultDrawOptions d)), .draw],
           .error e)
      | .ok bytes =>
        match lib.writeOutcome "reaction.png" bytes with
        | some e =>
            ([.parse smarts, .newDrawer (-1) 150,
              .setOptions (setScriptOptions (lib.defaultDrawOptions d)), .draw],
             .error e)
        | none =>
            ([.parse smarts, .newDrawer (-1) 150,
              .setOptions (setScriptOptions (lib.defaultDrawOptions d)), .draw,
              .write "reaction.png" bytes],
             .ok bytes)

/-- The script as executed: the descriptor is the hard-coded constant. -/
def runScript (lib : Library) : List Step × Except String (List Nat) :=
  runScriptWith lib thiol_maleimide_click_smarts

/-- The process entry point.  The source reads neither `sys.argv` nor
`os.environ`, so the embedding simply ignores both. -/
def runScriptMain (argv : List String) (env : List (String × String))
    (lib : Library) : List Step × Except String (List Nat) :=
  runScript lib

/-- A filesystem: an association list from path to file bytes. -/
abbrev FS : Type := List (String × List Nat)

/-- Contents of the file at `p`, if present. -/
def getFile (fs : FS) (p : String) : Option (List Nat) :=
  (fs.find? (fun kv => kv.1 == p)).map (fun kv => kv.2)

/-- Semantics of `Path(p).write_bytes(b)`: create or
truncate-and-overwrite. -/
def setFile (fs : FS) (p : String) (b : List Nat) : FS :=
  (p, b) :: fs.filter (fun kv => kv.1 != p)

/-- Effect of one step on the filesystem: only `write` touches it. -/
def applyStep (fs : FS) : Step → FS
  | .write p b => setFile fs p b
  | _ => fs

/-- Effect of a whole trace on the filesystem. -/
def applyTrace (fs : FS) (t : List Step) : FS :=
  t.foldl applyStep fs

/-- Whether a step is a file write. -/
def Step.isWrite : Step → Bool
  | .write _ _ => true
  | _ => false

/-- The write events of a trace. -/
def writesOf (t : List Step) : List Step :=
  t.filter Step.isWrite

/-- The 8-byte PNG file signature. -/
def pngSignature : List Nat :=
  [0x89, 0x50, 0x4E, 0x47, 0x0D, 0x0A, 0x1A, 0x0A]

/-- POSIX view of whether a path string is absolute: it starts with the
path separator. -/
def isAbsolutePath (p : String) : Bool :=
  p.data.head? == some '/'

/-- Resolution of a path against the current working directory of the
process: absolute paths stand alone, relative ones are joined to it. -/
def resolveIn (cwd p : String) : String :=
  if isAbsolutePath p then p else cwd ++ "/" ++ p

/-- Default draw options of the concrete model libraries below.  The
field values are arbitrary stand-ins for the actual RDKit defaults. -/
def modelDefaultOptions : DrawOptions :=
  { dummiesAreAttachments := false
    padding := 1/20
    otherOptions := [("bondLineWidth", "2")] }

/-- A concrete model library on which every external call succeeds and
the renderer returns PNG-signed bytes. -/
def okLib : Library where
  Reaction := Unit
  Drawer := Unit
  parseReaction := fun _ => .ok ()
  newCairoDrawer := fun _ _ => .ok ()
  defaultDrawOptions := fun _ => modelDefaultOptions
  drawReaction := fun _ _ _ => .ok (pngSignature ++ [0])
  writeOutcome := fun _ _ => none

/-- A concrete model library whose SMARTS parser rejects every input. -/
def rejectingLib : Library :=
  { okLib with parseReaction := fun _ => .error "SMARTS Parse Error" }

/-- A concrete model library whose drawer constructor fails. -/
def noDrawerLib : Library :=
  { okLib with newCairoDrawer := fun _ _ => .error "cairo error" }

/-- A concrete model library whose draw call fails. -/
def noDrawLib : Library :=
  { okLib with drawReaction := fun _ _ _ => .error "draw error" }

/-- A concrete model library whose file write fails. -/
def noWriteLib : Library :=
  { okLib with writeOutcome := fun _ _ => some "Permission denied" }

/-- Shape of a successful run: all four external calls succeeded, the
written bytes are exactly the renderer output, and the trace is the
full five-step program order ending in the single write. -/
theorem runScriptWith_ok_shape (lib : Library) (s : String) (t : List Step)
    (bytes : List Nat) (h : runScriptWith lib s = (t, .ok bytes)) :
    ∃ r d, lib.parseReaction s = .ok r ∧
      lib.newCairoDrawer (-1) 150 = .ok d ∧
      lib.drawReaction d (setScriptOptions (lib.defaultDrawOptions d)) r
        = .ok bytes ∧
      lib.writeOutcome "reaction.png" bytes = none ∧
      t = [.parse s, .newDrawer (-1) 150,
           .setOptions (setScriptOptions (lib.defaultDrawOptions d)), .draw,
           .write "reaction.png" bytes] := by
  unfold runScriptWith at h
  split at h
  next e hp => simp at h
  next r hp =>
    split at h
    next e hd => simp at h
    next d hd =>
      split at h
      next e hdr => simp at h
      next b hdr =>
        split at h
        next e hw => simp at h
        next hw =>
          injection h with h1 h2
          injection h2 with h2
          subst h1; subst h2
          exact ⟨r, d, hp, hd, hdr, hw, rfl⟩

/-- Shape of a failed run: the trace holds no write step, so the
filesystem is untouched. -/
theorem runScriptWith_error_shape (lib : Library) (s e : String)
    (t : List Step) (h : runScriptWith lib s = (t, .error e)) :
    writesOf t = [] ∧ ∀ fs : FS, applyTrace fs t = fs := by
  unfold runScriptWith at h
  split at h
  next e1 hp =>
    injection h with h1 h2
    subst h1
    exact ⟨rfl, fun fs => rfl⟩
  next r hp =>
    split at h
    next e1 hd =>
      injection h with h1 h2
      subst h1
      exact ⟨rfl, fun fs => rfl⟩
    next d hd =>
      split at h
      next e1 hdr =>
        injection h with h1 h2
        subst h1
        exact ⟨rfl, fun fs => rfl⟩
      next b hdr =>
        split at h
        next e1 hw =>
          injection h with h1 h2
          subst h1
          exact ⟨rfl, fun fs => rfl⟩
        next hw => simp at h

/-- Filtering out the entries at key `p` does not change a lookup at a
different key `q`. -/
theorem find?_filter_ne (l : List (String × List Nat)) (p q : String)
    (h : q ≠ p) :
    List.find? (fun kv => kv.1 == q) (l.filter (fun kv => kv.1 != p)) =
      List.find? (fun kv => kv.1 == q) l := by
  induction l with
  | nil => rfl
  | cons kv rest ih =>
    have hpq : (p == q) = false := beq_eq_false_iff_ne.mpr (Ne.symm h)
    by_cases hk : kv.1 = p
    · have hq : kv.1 ≠ q := by rw [hk]; exact Ne.symm h
      simp [List.filter_cons, List.find?_cons, hk, hq, hpq, ih]
    · by_cases hq : kv.1 = q
      · simp [List.filter_cons, List.find?_cons, hk, hq, h, ih]
      · simp [List.filter_cons, List.find?_cons, hk, hq, ih]

/-- Reading back the file just written returns the written bytes. -/
theorem getFile_setFile_same (fs : FS) (p : String) (b : List Nat) :
    getFile (setFile fs p b) p = some b := by
  simp [getFile, setFile]

/-- Writing one file leaves every other file unchanged. -/
theorem getFile_setFile_ne (fs : FS) (p q : String) (b : List Nat)
    (h : q ≠ p) : getFile (setFile fs p b) q = getFile fs q := by
  have hpq : (p == q) = false := beq_eq_false_iff_ne.mpr (Ne.symm h)
  simp only [getFile, setFile, List.find?_cons, hpq]
  exact congrArg _ (find?_filter_ne fs p q h)

/-- C1: The reaction descriptor string built by joining the reactants
list with `"."`, appending `">>"`, and appending the products list joined
with `"."` equals exactly the literal thiol–maleimide click SMARTS. -/
theorem descriptor_eq_literal :
    thiol_maleimide_click_smarts =
      "[*]-[S]-[H].[*]-[N]1-[C](=[O])-[CH]=[CH]-[C](=[O])-1>>[*]-[N]1-[C](=[O])-[CH2]-[CH](-[S]-[*])-[C](=[O])-1" := by
  rfl

/-- C2: For every malformed pattern string (one the external parser
rejects) supplied as the reaction descriptor, the run fails before any
file write is attempted: the trace stops at the parsing step, which
precedes the single write to `reaction.png`, so on parser failure the
filesystem is left untouched — no partial or corrupt output file. -/
theorem parse_failure_writes_nothing (lib : Library) (s e : String)
    (h : lib.parseReaction s = Except.error e) :
    (runScriptWith lib s).1 = [Step.parse s] ∧
    (runScriptWith lib s).2 = Except.error e ∧
    ∀ fs : FS, applyTrace fs (runScriptWith lib s).1 = fs := by
  unfold runScriptWith
  rw [h]
  exact ⟨rfl, rfl, fun fs => rfl⟩

/-- Witness for C2: a concrete library whose parser rejects an
unbalanced-bracket SMARTS, applied to a concrete descriptor. -/
theorem parse_failure_writes_nothing_witness :
    rejectingLib.parseReaction "[*]-[S" = Except.error "SMARTS Parse Error" ∧
    ((runScriptWith rejectingLib "[*]-[S").1 = [Step.parse "[*]-[S"] ∧
     (runScriptWith rejectingLib "[*]-[S").2 =
       Except.error "SMARTS Parse Error" ∧
     ∀ fs : FS, applyTrace fs (runScriptWith rejectingLib "[*]-[S").1 = fs) :=
  ⟨rfl, parse_failure_writes_nothing rejectingLib "[*]-[S" "SMARTS Parse Error" rfl⟩

/-- C3: A successful run performs exactly one write, to the fixed name
`reaction.png`, whose contents are exactly the bytes returned by the
external renderer; every other file is untouched, and when the rendered
bytes carry the PNG signature the written file is non-empty and begins
with `89 50 4E 47 0D 0A 1A 0A` at offset 0. -/
theorem success_single_png_write (lib : Library) (s : String) (t : List Step)
    (bytes : List Nat) (fs : FS)
    (h : runScriptWith lib s = (t, Except.ok bytes))
    (hpng : bytes.take 8 = pngSignature) :
    writesOf t = [Step.write "reaction.png" bytes] ∧
    (∃ r d, lib.parseReaction s = Except.ok r ∧
      lib.newCairoDrawer (-1) 150 = Except.ok d ∧
      lib.drawReaction d (setScriptOptions (lib.defaultDrawOptions d)) r =
        Except.ok bytes) ∧
    getFile (applyTrace fs t) "reaction.png" = some bytes ∧
    (∀ q : String, q ≠ "reaction.png" →
      getFile (applyTrace fs t) q = getFile fs q) ∧
    bytes ≠ [] ∧
    bytes.take 8 = pngSignature := by
  obtain ⟨r, d, hp, hd, hdr, hw, ht⟩ := runScriptWith_ok_shape lib s t bytes h
  subst ht
  refine ⟨rfl, ⟨r, d, hp, hd, hdr⟩, ?_, ?_, ?_, hpng⟩
  · exact getFile_setFile_same fs _ bytes
  · intro q hq
    exact getFile_setFile_ne fs _ q bytes hq
  · intro hnil
    rw [hnil] at hpng
    exact absurd hpng (by decide)

/-- Witness for C3: the all-succeeding concrete library, run on a
concrete descriptor over the empty filesystem. -/
theorem success_single_png_write_witness :
    (runScriptWith okLib "CCO" =
      ([Step.parse "CCO", Step.newDrawer (-1) 150,
        Step.setOptions (setScriptOptions modelDefaultOptions), Step.draw,
        Step.write "reaction.png" (pngSignature ++ [0])],
       Except.ok (pngSignature ++ [0])) ∧
     (pngSignature ++ [0]).take 8 = pngSignature) ∧
    getFile
      (applyTrace ([] : FS)
        [Step.parse "CCO", Step.newDrawer (-1) 150,
         Step.setOptions (setScriptOptions modelDefaultOptions), Step.draw,
         Step.write "reaction.png" (pngSignature ++ [0])])
      "reaction.png" = some (pngSignature ++ [0]) :=
  ⟨⟨rfl, by decide⟩,
   (success_single_png_write okLib "CCO" _ _ ([] : FS) rfl (by decide)).2.2.1⟩

/-- C4: Re-running is idempotent: whatever `reaction.png` held before, a
successful run overwrites it with the rendered bytes, two runs from any
two prior filesystems leave identical contents, and a second run changes
nothing the first did not already establish. -/
theorem rerun_idempotent (lib : Library) (t : List Step) (bytes : List Nat)
    (fs1 fs2 : FS) (h : runScript lib = (t, Except.ok bytes)) :
    getFile (applyTrace fs1 t) "reaction.png" = some bytes ∧
    getFile (applyTrace fs2 t) "reaction.png" = some bytes ∧
    getFile (applyTrace (applyTrace fs1 t) t) "reaction.png" =
      getFile (applyTrace fs1 t) "reaction.png" := by
  obtain ⟨r, d, hp, hd, hdr, hw, ht⟩ :=
    runScriptWith_ok_shape lib thiol_maleimide_click_smarts t bytes h
  subst ht
  exact ⟨getFile_setFile_same fs1 _ bytes, getFile_setFile_same fs2 _ bytes,
    (getFile_setFile_same (setFile fs1 "reaction.png" bytes) "reaction.png"
        bytes).trans
      (getFile_setFile_same fs1 "reaction.png" bytes).symm⟩

/-- Witness for C4: the all-succeeding concrete library, with two
distinct prior filesystems. -/
theorem rerun_idempotent_witness :
    runScript okLib =
      ([Step.parse thiol_maleimide_click_smarts, Step.newDrawer (-1) 150,
        Step.setOptions (setScriptOptions modelDefaultOptions), Step.draw,
        Step.write "reaction.png" (pngSignature ++ [0])],
       Except.ok (pngSignature ++ [0])) ∧
    getFile
      (applyTrace ([("reaction.png", [1, 2, 3])] : FS)
        [Step.parse thiol_maleimide_click_smarts, Step.newDrawer (-1) 150,
         Step.setOptions (setScriptOptions modelDefaultOptions), Step.draw,
         Step.write "reaction.png" (pngSignature ++ [0])])
      "reaction.png" = some (pngSignature ++ [0]) :=
  ⟨rfl,
   (rerun_idempotent okLib _ _ ([("reaction.png", [1, 2, 3])] : FS) ([] : FS)
      rfl).1⟩

/-- C5: The options handed to the renderer are the drawer defaults with
exactly two named settings changed: `dummiesAreAttachments` set to true
and `padding` set to zero; every other draw option keeps its default. -/
theorem draw_options_exactly_two (lib : Library) (s : String)
    (opts : DrawOptions)
    (h : Step.setOptions opts ∈ (runScriptWith lib s).1) :
    ∃ d, lib.newCairoDrawer (-1) 150 = Except.ok d ∧
      opts = setScriptOptions (lib.defaultDrawOptions d) ∧
      opts.dummiesAreAttachments = true ∧
      opts.padding = 0 ∧
      opts.otherOptions = (lib.defaultDrawOptions d).otherOptions := by
  unfold runScriptWith at h
  split at h
  next e hp => simp at h
  next r hp =>
    split at h
    next e hd => simp at h
    next d hd =>
      split at h
      next e hdr =>
        simp at h
        exact ⟨d, hd, h, by rw [h]; rfl, by rw [h]; rfl, by rw [h]; rfl⟩
      next b hdr =>
        split at h
        next e hw =>
          simp at h
          exact ⟨d, hd, h, by rw [h]; rfl, by rw [h]; rfl, by rw [h]; rfl⟩
        next hw =>
          simp at h
          exact ⟨d, hd, h, by rw [h]; rfl, by rw [h]; rfl, by rw [h]; rfl⟩

/-- Witness for C5: the options step of a successful concrete run. -/
theorem draw_options_exactly_two_witness :
    Step.setOptions (setScriptOptions modelDefaultOptions) ∈
      (runScriptWith okLib "CCO").1 ∧
    ∃ d, okLib.newCairoDrawer (-1) 150 = Except.ok d ∧
      setScriptOptions modelDefaultOptions =
        setScriptOptions (okLib.defaultDrawOptions d) ∧
      (setScriptOptions modelDefaultOptions).dummiesAreAttachments = true ∧
      (setScriptOptions modelDefaultOptions).padding = 0 ∧
      (setScriptOptions modelDefaultOptions).otherOptions =
        (okLib.defaultDrawOptions d).otherOptions :=
  ⟨by decide,
   draw_options_exactly_two okLib "CCO" (setScriptOptions modelDefaultOptions)
     (by decide)⟩

/-- C6: The script takes no input from the environment or command line:
for every pair of runs, whatever the CLI arguments and environment
variables, the whole run (trace and outcome, hence the bytes passed to
the write call) is identical, and the descriptor handed to the parser is
always the hard-coded constant. -/
theorem no_external_input (lib : Library) (argv1 argv2 : List String)
    (env1 env2 : List (String × String)) :
    runScriptMain argv1 env1 lib = runScriptMain argv2 env2 lib ∧
    (runScriptMain argv1 env1 lib).1.head? =
      some (Step.parse thiol_maleimide_click_smarts) := by
  refine ⟨rfl, ?_⟩
  unfold runScriptMain runScript runScriptWith
  split
  · rfl
  · split
    · rfl
    · split
      · rfl
      · split
        · rfl
        · rfl

/-- C7: No error handling exists: a run fails exactly when one of the
four external operations (parse, drawer construction, draw, file write)
fails, and the error value reaching the caller is the very error of that
operation, never caught, retried, or translated. -/
theorem errors_propagate_uncaught (lib : Library) (s e : String)
    (t : List Step) (h : runScriptWith lib s = (t, Except.error e)) :
    lib.parseReaction s = Except.error e ∨
    (∃ r, lib.parseReaction s = Except.ok r ∧
      lib.newCairoDrawer (-1) 150 = Except.error e) ∨
    (∃ r d, lib.parseReaction s = Except.ok r ∧
      lib.newCairoDrawer (-1) 150 = Except.ok d ∧
      lib.drawReaction d (setScriptOptions (lib.defaultDrawOptions d)) r =
        Except.error e) ∨
    (∃ r d bytes, lib.parseReaction s = Except.ok r ∧
      lib.newCairoDrawer (-1) 150 = Except.ok d ∧
      lib.drawReaction d (setScriptOptions (lib.defaultDrawOptions d)) r =
        Except.ok bytes ∧
      lib.writeOutcome "reaction.png" bytes = some e) := by
  unfold runScriptWith at h
  split at h
  next e1 hp =>
    injection h with h1 h2
    injection h2 with h2
    subst h2
    exact Or.inl hp
  next r hp =>
    split at h
    next e1 hd =>
      injection h with h1 h2
      injection h2 with h2
      subst h2
      exact Or.inr (Or.inl ⟨r, hp, hd⟩)
    next d hd =>
      split at h
      next e1 hdr =>
        injection h with h1 h2
        injection h2 with h2
        subst h2
        exact Or.inr (Or.inr (Or.inl ⟨r, d, hp, hd, hdr⟩))
      next b hdr =>
        split at h
        next e1 hw =>
          injection h with h1 h2
          injection h2 with h2
          subst h2
          exact Or.inr (Or.inr (Or.inr ⟨r, d, b, hp, hd, hdr, hw⟩))
        next hw => simp at h

/-- Witness for C7: a concrete run whose file write fails with a
permission error, which reaches the caller unchanged. -/
theorem errors_propagate_uncaught_witness :
    runScriptWith noWriteLib "CCO" =
      ([Step.parse "CCO", Step.newDrawer (-1) 150,
        Step.setOptions (setScriptOptions modelDefaultOptions), Step.draw],
       Except.error "Permission denied") ∧
    (noWriteLib.parseReaction "CCO" = Except.error "Permission denied" ∨
     (∃ r, noWriteLib.parseReaction "CCO" = Except.ok r ∧
       noWriteLib.newCairoDrawer (-1) 150 =
         Except.error "Permission denied") ∨
     (∃ r d, noWriteLib.parseReaction "CCO" = Except.ok r ∧
       noWriteLib.newCairoDrawer (-1) 150 = Except.ok d ∧
       noWriteLib.drawReaction d
           (setScriptOptions (noWriteLib.defaultDrawOptions d)) r =
         Except.error "Permission denied") ∨
     (∃ r d bytes, noWriteLib.parseReaction "CCO" = Except.ok r ∧
       noWriteLib.newCairoDrawer (-1) 150 = Except.ok d ∧
       noWriteLib.drawReaction d
           (setScriptOptions (noWriteLib.defaultDrawOptions d)) r =
         Except.ok bytes ∧
       noWriteLib.writeOutcome "reaction.png" bytes =
         some "Permission denied")) :=
  ⟨rfl,
   errors_propagate_uncaught noWriteLib "CCO" "Permission denied"
     [Step.parse "CCO", Step.newDrawer (-1) 150,
      Step.setOptions (setScriptOptions modelDefaultOptions), Step.draw]
     rfl⟩

/-- C8: The drawer canvas is always constructed with width `-1` and
height `150`: every drawer-construction step in any run carries exactly
these dimensions, and whenever parsing succeeds such a step occurs. -/
theorem canvas_width_height (lib : Library) (s : String) :
    (∀ w h : Int, Step.newDrawer w h ∈ (runScriptWith lib s).1 →
      w = -1 ∧ h = 150) ∧
    ∀ r, lib.parseReaction s = Except.ok r →
      Step.newDrawer (-1) 150 ∈ (runScriptWith lib s).1 := by
  constructor
  · intro w h hmem
    unfold runScriptWith at hmem
    split at hmem
    next e hp => simp at hmem
    next r hp =>
      split at hmem
      next e hd =>
        simp at hmem
        exact hmem
      next d hd =>
        split at hmem
        next e hdr =>
          simp at hmem
          exact hmem
        next b hdr =>
          split at hmem
          next e hw =>
            simp at hmem
            exact hmem
          next hw =>
            simp at hmem
            exact hmem
  · intro r hp
    cases hd : lib.newCairoDrawer (-1) 150 with
    | error e => simp [runScriptWith, hp, hd]
    | ok d =>
      cases hdr : lib.drawReaction d (setScriptOptions (lib.defaultDrawOptions d)) r with
      | error e => simp [runScriptWith, hp, hd, hdr]
      | ok b =>
        cases hw : lib.writeOutcome "reaction.png" b with
        | some e => simp [runScriptWith, hp, hd, hdr, hw]
        | none => simp [runScriptWith, hp, hd, hdr, hw]

/-- Witness for C8: the construction step of a concrete successful run. -/
theorem canvas_width_height_witness :
    ((-1 : Int) = -1 ∧ (150 : Int) = 150) ∧
    Step.newDrawer (-1) 150 ∈ (runScriptWith okLib "CCO").1 :=
  ⟨(canvas_width_height okLib "CCO").1 (-1) 150 (by decide),
   (canvas_width_height okLib "CCO").2 () rfl⟩

/-- C9: The output path `"reaction.png"` is relative: it does not start
with the path separator, its resolution depends on the current working
directory (two different directories give two different files), and every
write the script performs targets exactly this relative name. -/
theorem output_path_is_relative (lib : Library) (s : String) :
    isAbsolutePath "reaction.png" = false ∧
    (∀ cwd : String,
      resolveIn cwd "reaction.png" = cwd ++ "/" ++ "reaction.png") ∧
    resolveIn "/tmp/a" "reaction.png" ≠ resolveIn "/tmp/b" "reaction.png" ∧
    ∀ p b, Step.write p b ∈ (runScriptWith lib s).1 → p = "reaction.png" := by
  have habs : isAbsolutePath "reaction.png" = false := by decide
  refine ⟨habs, fun cwd => by simp [resolveIn, habs], by decide, ?_⟩
  intro p b hmem
  unfold runScriptWith at hmem
  split at hmem
  next e hp => simp at hmem
  next r hp =>
    split at hmem
    next e hd => simp at hmem
    next d hd =>
      split at hmem
      next e hdr => simp at hmem
      next b2 hdr =>
        split at hmem
        next e hw => simp at hmem
        next hw =>
          simp at hmem
          exact hmem.1

/-- Witness for C9: the write step of a concrete successful run. -/
theorem output_path_is_relative_witness :
    Step.write "reaction.png" (pngSignature ++ [0]) ∈
      (runScriptWith okLib "CCO").1 ∧
    "reaction.png" = "reaction.png" :=
  ⟨by decide,
   (output_path_is_relative okLib "CCO").2.2.2 "reaction.png"
     (pngSignature ++ [0]) (by decide)⟩

/-- C10: If any step before the final write fails — parsing, drawer
construction, or drawing — the run performs no write at all, so a
pre-existing `reaction.png` from an earlier run is left byte-for-byte
unchanged: the write to the file is the last operation of the script. -/
theorem prewrite_failure_leaves_file (lib : Library) (s e : String)
    (fs : FS)
    (h : lib.parseReaction s = Except.error e ∨
         lib.newCairoDrawer (-1) 150 = Except.error e ∨
         ∃ r d, lib.parseReaction s = Except.ok r ∧
           lib.newCairoDrawer (-1) 150 = Except.ok d ∧
           lib.drawReaction d (setScriptOptions (lib.defaultDrawOptions d)) r =
             Except.error e) :
    writesOf (runScriptWith lib s).1 = [] ∧
    applyTrace fs (runScriptWith lib s).1 = fs ∧
    getFile (applyTrace fs (runScriptWith lib s).1) "reaction.png" =
      getFile fs "reaction.png" := by
  have herr : ∃ e2, (runScriptWith lib s).2 = Except.error e2 := by
    rcases h with h1 | h2 | ⟨r, d, hp, hd, hdr⟩
    · exact ⟨e, by simp [runScriptWith, h1]⟩
    · cases hp : lib.parseReaction s with
      | error e1 => exact ⟨e1, by simp [runScriptWith, hp]⟩
      | ok r => exact ⟨e, by simp [runScriptWith, hp, h2]⟩
    · exact ⟨e, by simp [runScriptWith, hp, hd, hdr]⟩
  obtain ⟨e2, he2⟩ := herr
  have hpair : runScriptWith lib s = ((runScriptWith lib s).1, Except.error e2) := by
    rw [← he2]
  obtain ⟨hw0, hfs⟩ := runScriptWith_error_shape lib s e2 _ hpair
  exact ⟨hw0, hfs fs, by rw [hfs fs]⟩

/-- Witness for C10: a concrete run whose draw call fails, over a
filesystem already holding a `reaction.png` from an earlier run. -/
theorem prewrite_failure_leaves_file_witness :
    (noDrawLib.parseReaction "CCO" = Except.error "draw error" ∨
     noDrawLib.newCairoDrawer (-1) 150 = Except.error "draw error" ∨
     ∃ r d, noDrawLib.parseReaction "CCO" = Except.ok r ∧
       noDrawLib.newCairoDrawer (-1) 150 = Except.ok d ∧
       noDrawLib.drawReaction d
           (setScriptOptions (noDrawLib.defaultDrawOptions d)) r =
         Except.error "draw error") ∧
    getFile
      (applyTrace ([("reaction.png", [1, 2, 3])] : FS)
        (runScriptWith noDrawLib "CCO").1)
      "reaction.png" = getFile ([("reaction.png", [1, 2, 3])] : FS)
        "reaction.png" :=
  ⟨Or.inr (Or.inr ⟨(), (), rfl, rfl, rfl⟩),
   (prewrite_failure_leaves_file noDrawLib "CCO" "draw error"
      ([("reaction.png", [1, 2, 3])] : FS)
      (Or.inr (Or.inr ⟨(), (), rfl, rfl, rfl⟩))).2.2⟩

end GenerateRxnImage
